import Mathlib

/-!
Shallow embedding of the `tts` gateway (src/main.py, src/tts/base.py,
src/tts/azure.py, src/tts/volcengine.py).

HTTP transport, file I/O and the system clock are modelled by passing their
observable results explicitly (the vendor response, the cache-file content,
`now`), so every operation below is a pure function of its inputs, translated
line by line from the Python source.  Python floats (`speed`, `time.time()`)
are modelled as rationals; byte strings as `List Nat`.
-/

namespace TTS

/-- `TTSRequest` from src/tts/base.py: text, voice, speed, response_format. -/
structure TTSRequest where
  text : String
  voice : String
  speed : ℚ
  response_format : String
  deriving DecidableEq

/-- `VoiceInfo` from src/tts/base.py. -/
structure VoiceInfo where
  id : String
  name : String
  language : String
  gender : Option String
  provider : String
  deriving DecidableEq

/-- `CACHE_TTL = 86400 * 7` from src/tts/base.py. -/
def CACHE_TTL : ℚ := 86400 * 7

/-- One entry of the `voices` array of a cache file, as seen by
`VoiceCache.get`.  `good v` is a JSON object whose keys match the
`VoiceInfo` dataclass fields, so `VoiceInfo(**v)` succeeds; `badFields` is a
JSON object with missing or unexpected keys, on which `VoiceInfo(**v)`
raises `TypeError` (an exception that is not in the `except` clause of
`VoiceCache.get`). -/
inductive JsonVoice where
  | good (v : VoiceInfo)
  | badFields
  deriving DecidableEq

/-- Observable content of the on-disk cache file `{provider}_voices.json`:
absent, present but not valid JSON (`json.loads` raises `JSONDecodeError`;
this includes the empty file), or a JSON object with an optional numeric
`timestamp` key (absent key modelled as `none`, defaulted to `0` by
`data.get("timestamp", 0)`) and a `voices` array. -/
inductive CacheFile where
  | missing
  | notJson
  | record (timestamp : Option ℚ) (voices : List JsonVoice)
  deriving DecidableEq

/-- Result of `VoiceCache.get`: `cacheMiss` is Python `None`; `voices vs` is
a parsed list; `typeError` is an uncaught `TypeError` escaping to the
caller (raised by `VoiceInfo(**v)` on a malformed entry, since the
`except` clause only catches `json.JSONDecodeError` and `KeyError`). -/
inductive CacheGetResult where
  | cacheMiss
  | voices (vs : List VoiceInfo)
  | typeError
  deriving DecidableEq

/-- The list comprehension `[VoiceInfo(**v) for v in data.get("voices", [])]`:
succeeds iff every entry is well formed, otherwise `TypeError` escapes. -/
def parseVoices : List JsonVoice → CacheGetResult
  | [] => .voices []
  | .badFields :: _ => .typeError
  | .good v :: rest =>
    match parseVoices rest with
    | .voices vs => .voices (v :: vs)
    | r => r

/-- `VoiceCache.get` (src/tts/base.py lines 45-58), with the clock and the
file content passed explicitly.  A missing file returns `None`; invalid JSON
raises `JSONDecodeError`, caught and turned into `None`; an expired record
(`now - timestamp > ttl`) returns `None`; otherwise the `voices` array is
parsed entry by entry, where a malformed entry raises an uncaught
`TypeError`. -/
def VoiceCache.get (now ttl : ℚ) (file : CacheFile) : CacheGetResult :=
  match file with
  | .missing => .cacheMiss
  | .notJson => .cacheMiss
  | .record ts voices =>
    if now - ts.getD 0 > ttl then .cacheMiss
    else parseVoices voices

/-- The record written by `VoiceCache.set` (src/tts/base.py lines 60-67):
`{"timestamp": time.time(), "voices": [asdict(v) for v in voices]}`.  Every
written entry round-trips through `asdict`, hence is well formed. -/
def VoiceCache.set_record (now : ℚ) (voices : List VoiceInfo) : CacheFile :=
  .record (some now) (voices.map .good)

/-- File states observable by a concurrent reader while `VoiceCache.set`
runs.  `Path.write_text` opens the cache file in mode `"w"`, which truncates
it to length zero, and then writes the serialized record; a reader scheduled
between the truncation and the write sees an empty file, i.e. invalid JSON
(`CacheFile.notJson`).  There is no temp-file-plus-rename step in the
source, so the intermediate state is visible. -/
def VoiceCache.set_observable (old : CacheFile) (now : ℚ) (voices : List VoiceInfo) :
    List CacheFile :=
  [old, .notJson, VoiceCache.set_record now voices]

/-- Python truthiness of `self._voices` / `cached` in
`TTSProvider.get_voices`: both `None` and the empty list are falsy. -/
def voicesTruthy : Option (List VoiceInfo) → Bool
  | some (_ :: _) => true
  | _ => false

deriving instance DecidableEq for Except

/-- Observable outcome of one `TTSProvider.get_voices` call: the returned
value or propagated error, the in-memory slot `self._voices` after the call,
the argument of the `VoiceCache.set` call if one was made, and the number of
`_fetch_voices` calls. -/
structure GetVoicesOutcome where
  result : Except String (List VoiceInfo)
  memory : Option (List VoiceInfo)
  cacheWrite : Option (List VoiceInfo)
  fetchCount : Nat
  deriving DecidableEq

/-- `TTSProvider.get_voices` (src/tts/base.py lines 124-145).  `memory` is
`self._voices` before the call; `cached` is what `self._voice_cache.get()`
would return; `fetched` is the result of the remote `_fetch_voices()` call
(`Except.error` models a raised exception).  When the fetch raises, the
assignment `self._voices = await self._fetch_voices()` never happens and
`VoiceCache.set` is not reached, so the slot and the disk cache are
untouched. -/
def TTSProvider.get_voices (memory : Option (List VoiceInfo)) (force_refresh : Bool)
    (cached : Option (List VoiceInfo)) (fetched : Except String (List VoiceInfo)) :
    GetVoicesOutcome :=
  if !force_refresh && voicesTruthy memory then
    ⟨.ok (memory.getD []), memory, none, 0⟩
  else if !force_refresh && voicesTruthy cached then
    ⟨.ok (cached.getD []), cached, none, 0⟩
  else
    match fetched with
    | .ok vs => ⟨.ok vs, some vs, some vs, 1⟩
    | .error e => ⟨.error e, memory, none, 1⟩

/-- `TTSProvider.supports_voice` (src/tts/base.py lines 147-149): a stub
that accepts every voice id. -/
def supports_voice (_voice_id : String) : Bool :=
  true

/-- Python `a or b` on strings: the empty string is falsy. -/
def strOr (a b : String) : String :=
  if a = "" then b else a

end TTS

namespace TTS.Azure

/-- Constants from src/tts/azure.py. -/
def DEFAULT_VOICE_NAME : String := "zh-CN-XiaoxiaoMultilingualNeural"

def DEFAULT_OUTPUT_FORMAT : String := "audio-24khz-48kbitrate-mono-mp3"

def DEFAULT_STYLE : String := "general"

/-- The endpoint-negotiation response body: `t` is the signed bearer token,
`r` the regional host fragment. -/
structure Endpoint where
  t : String
  r : String
  deriving DecidableEq

/-- Session state of `AzureTTSProvider`: `self._endpoint` and
`self._expired_at` (both `None` on construction; `_expired_at` is the `exp`
claim decoded from the token). -/
structure AzureState where
  endpoint : Option Endpoint
  expired_at : Option ℤ
  deriving DecidableEq

/-- The guard `if self._expired_at and current_time < self._expired_at - 60`
of `_get_endpoint`: `self._expired_at` is truthy iff it is neither `None`
nor `0`. -/
def tokenValid (expired_at : Option ℤ) (now : ℤ) : Bool :=
  match expired_at with
  | some e => e != 0 && decide (now < e - 60)
  | none => false

/-- Outcome of `_get_endpoint`: the endpoint handed to the caller, the
session state afterwards, and how many token refreshes (negotiation POSTs)
were performed. -/
structure EndpointOutcome where
  endpoint : Option Endpoint
  state : AzureState
  refreshCount : Nat
  deriving DecidableEq

/-- `AzureTTSProvider._get_endpoint` (src/tts/azure.py lines 74-106), with
the clock and the network abstracted: `fresh` is the endpoint the
negotiation POST would return and `freshExp` the `exp` claim decoded from
the base64url JWT segment of its token.  If the cached expiry is truthy and
`now < expiry - 60`, the cached endpoint is returned with no refresh;
otherwise exactly one synchronous refresh runs and both fields of the
session state are overwritten. -/
def get_endpoint (st : AzureState) (now : ℤ) (fresh : Endpoint) (freshExp : ℤ) :
    EndpointOutcome :=
  if tokenValid st.expired_at now then
    ⟨st.endpoint, st, 0⟩
  else
    ⟨some fresh, ⟨some fresh, some freshExp⟩, 1⟩

/-- `format_map` inside `AzureTTSProvider._get_output_format`
(src/tts/azure.py lines 179-186). -/
def format_map : List (String × String) :=
  [("mp3", "audio-24khz-48kbitrate-mono-mp3"),
   ("opus", "ogg-24khz-16bit-mono-opus"),
   ("aac", "audio-24khz-96kbitrate-mono-mp3"),
   ("flac", "audio-24khz-48kbitrate-mono-mp3"),
   ("wav", "riff-24khz-16bit-mono-pcm"),
   ("pcm", "raw-24khz-16bit-mono-pcm")]

/-- `AzureTTSProvider._get_output_format`:
`format_map.get(response_format, DEFAULT_OUTPUT_FORMAT)`. -/
def get_output_format (response_format : String) : String :=
  match format_map.lookup response_format with
  | some f => f
  | none => DEFAULT_OUTPUT_FORMAT

/-- Python `int()` applied to a rational: truncation toward zero. -/
def truncTowardZero (q : ℚ) : ℤ :=
  if 0 ≤ q then ⌊q⌋ else ⌈q⌉

/-- `rate = str(int((request.speed - 1) * 100))` from
`AzureTTSProvider.synthesize` (src/tts/azure.py line 112). -/
def azureRate (speed : ℚ) : ℤ :=
  truncTowardZero ((speed - 1) * 100)

/-- `_build_ssml` (src/tts/azure.py lines 49-59): the exact f-string
template. -/
def build_ssml (text voice_name rate pitch style : String) : String :=
  "<speak xmlns=\"http://www.w3.org/2001/10/synthesis\" xmlns:mstts=\"http://www.w3.org/2001/mstts\" version=\"1.0\" xml:lang=\"zh-CN\">\n<voice name=\""
    ++ voice_name ++ "\">\n    <mstts:express-as style=\"" ++ style
    ++ "\" styledegree=\"1.0\" role=\"default\">\n        <prosody rate=\"" ++ rate
    ++ "%\" pitch=\"" ++ pitch ++ "%\">\n            " ++ text
    ++ "\n        </prosody>\n    </mstts:express-as>\n</voice>\n</speak>"

/-- The outbound synthesis POST built by `AzureTTSProvider.synthesize` and
`AzureTTSProvider.synthesize_stream` (both methods build it with identical
code, src/tts/azure.py lines 108-127 and 129-149). -/
structure VendorCall where
  url : String
  authorization : String
  outputFormat : String
  ssml : String
  deriving DecidableEq

/-- The vendor call built from an endpoint and a request:
`voice_name = request.voice or DEFAULT_VOICE_NAME`,
`rate = str(int((request.speed - 1) * 100))`, `pitch = "0"`, the style is
the fixed `DEFAULT_STYLE`, the URL embeds the region fragment `r`, and the
`Authorization` header is the token `t`. -/
def vendorCall (ep : Endpoint) (req : TTS.TTSRequest) : VendorCall :=
  { url := "https://" ++ ep.r ++ ".tts.speech.microsoft.com/cognitiveservices/v1"
    authorization := ep.t
    outputFormat := get_output_format req.response_format
    ssml := build_ssml req.text (TTS.strOr req.voice DEFAULT_VOICE_NAME)
      (toString (azureRate req.speed)) "0" DEFAULT_STYLE }

/-- Outcome of the shared prologue of `synthesize` / `synthesize_stream`:
refresh count, session state afterwards, and the vendor call issued (none
only in the degenerate state where the cached expiry is truthy but the
cached endpoint is `None`, where the Python would crash on
`endpoint["r"]`). -/
structure BuildOutcome where
  refreshCount : Nat
  state : AzureState
  call : Option VendorCall
  deriving DecidableEq

/-- `AzureTTSProvider.synthesize` / `synthesize_stream` up to the outbound
POST: first `_get_endpoint` (refreshing if needed), then the request
construction.  There is no validation step: every voice id and every
response_format value leads to a vendor call. -/
def buildCall (st : AzureState) (now : ℤ) (req : TTS.TTSRequest)
    (fresh : Endpoint) (freshExp : ℤ) : BuildOutcome :=
  let o := get_endpoint st now fresh freshExp
  { refreshCount := o.refreshCount
    state := o.state
    call := o.endpoint.map (fun ep => vendorCall ep req) }

end TTS.Azure

namespace TTS.Volcengine

/-- `DEFAULT_VOICE = "zh_female_qingxin"` from src/tts/volcengine.py. -/
def DEFAULT_VOICE : String := "zh_female_qingxin"

/-- `VOLCENGINE_VOICES` (src/tts/volcengine.py lines 30-41), as mapped into
`VoiceInfo` by `_fetch_voices` with `provider = "volcengine"`. -/
def fetch_voices : List TTS.VoiceInfo :=
  [⟨"zh_female_story", "少儿故事 中英混", "zh-CN", some "Female", "volcengine"⟩,
   ⟨"zh_female_qingxin", "清新女声 中英混", "zh-CN", some "Female", "volcengine"⟩,
   ⟨"zh_female_zhubo", "女主播 中英混", "zh-CN", some "Female", "volcengine"⟩,
   ⟨"zh_male_zhubo", "男主播 中英混", "zh-CN", some "Male", "volcengine"⟩,
   ⟨"zh_male_xiaoming", "影视男解说 中英混", "zh-CN", some "Male", "volcengine"⟩,
   ⟨"zh_female_sichuan", "四川女声 川英混", "zh-CN", some "Female", "volcengine"⟩,
   ⟨"zh_male_rap", "嘻哈男歌手 中英混", "zh-CN", some "Male", "volcengine"⟩,
   ⟨"en_female_sarah", "澳英女声 澳洲英语", "en-AU", some "Female", "volcengine"⟩,
   ⟨"jp_male_satoshi", "活力男青年 日语", "ja-JP", some "Male", "volcengine"⟩,
   ⟨"jp_female_hana", "温柔女声 日语", "ja-JP", some "Female", "volcengine"⟩]

/-- The JSON body POSTed to the Volcengine TTS endpoint by `synthesize`:
`{"text": ..., "speaker": request.voice or DEFAULT_VOICE}`, plus a
`language` key only when the detected language is truthy (not `None`, not
the empty string). -/
structure Payload where
  text : String
  speaker : String
  language : Option String
  deriving DecidableEq

/-- The payload-construction lines of `VolcengineTTSProvider.synthesize`
(src/tts/volcengine.py lines 71-75); `detected` is what `_detect_language`
returned (`none` models both `None` and a detection failure). -/
def synthesize_payload (req : TTS.TTSRequest) (detected : Option String) : Payload :=
  { text := req.text
    speaker := TTS.strOr req.voice DEFAULT_VOICE
    language :=
      match detected with
      | some l => if l = "" then none else some l
      | none => none }

/-- The `audio` field of the vendor JSON response.  `absent` covers a
missing key and every falsy value (`None`, the empty object); `present d`
is a truthy `audio` object whose `data` key is `d` (`none` models a
missing or falsy `data`; `some bytes` a non-empty base64 string, carried
here already decoded since nothing downstream re-examines the encoding). -/
inductive AudioField where
  | absent
  | present (data : Option (List Nat))
  deriving DecidableEq

/-- The vendor JSON response consumed by `synthesize` after
`raise_for_status` (a non-2xx status raises before any of this runs). -/
structure VolcResponse where
  audio : AudioField
  message : Option String
  deriving DecidableEq

/-- `VolcengineTTSProvider.synthesize` (src/tts/volcengine.py lines 69-92)
from the parsed response on: falsy `audio` raises with the vendor message
(default `未知错误`); falsy `audio.data` raises the second message;
otherwise the decoded bytes are returned. -/
def synthesize (req : TTS.TTSRequest) (detected : Option String)
    (resp : VolcResponse) : Except String (List Nat) :=
  let voice := (synthesize_payload req detected).speaker
  match resp.audio with
  | .absent =>
    .error ("火山语音服务 " ++ voice ++ " 生成失败: " ++ resp.message.getD "未知错误")
  | .present none =>
    .error ("火山语音服务 " ++ voice ++ " 数据生成失败")
  | .present (some bytes) => .ok bytes

/-- The chunking loop of `VolcengineTTSProvider.synthesize_stream`
(src/tts/volcengine.py lines 97-99):
`for i in range(0, len(audio_data), 4096): yield audio_data[i : i + 4096]`. -/
def chunkList (xs : List Nat) : List (List Nat) :=
  if xs = [] then []
  else xs.take 4096 :: chunkList (xs.drop 4096)
termination_by xs.length
decreasing_by
  simp only [List.length_drop]
  rename_i h
  have : 0 < xs.length := List.length_pos.mpr h
  omega

/-- `VolcengineTTSProvider.synthesize_stream` (src/tts/volcengine.py lines
94-99): performs the full synthesis, then re-chunks the buffered bytes;
an exception in `synthesize` propagates before any chunk is yielded. -/
def synthesize_stream (req : TTS.TTSRequest) (detected : Option String)
    (resp : VolcResponse) : Except String (List (List Nat)) :=
  (synthesize req detected resp).map chunkList

end TTS.Volcengine

namespace TTS.Main

/-- `ResponseFormat` enum from src/main.py. -/
inductive ResponseFormat where
  | mp3 | opus | aac | flac | wav | pcm
  deriving DecidableEq

/-- The `.value` of each enum member. -/
def ResponseFormat.value : ResponseFormat → String
  | .mp3 => "mp3"
  | .opus => "opus"
  | .aac => "aac"
  | .flac => "flac"
  | .wav => "wav"
  | .pcm => "pcm"

/-- Keys of the provider registry built in `lifespan` (src/main.py lines
20-27). -/
def providers : List String := ["azure", "volcengine"]

/-- Outcome of a speech request at the HTTP layer: `unprocessable` is the
framework-level validation failure (HTTP 422, issued before any handler or
provider code runs); `unsupportedModel` is the explicit HTTP 400 for a model
missing from the registry; `streaming` means `provider.synthesize_stream`
was invoked with the given request. -/
inductive SpeechOutcome where
  | unprocessable
  | unsupportedModel
  | streaming (model : String) (req : TTS.TTSRequest)
  deriving DecidableEq

/-- `_synthesize_speech` (src/main.py lines 83-108): registry lookup, then
the `TTSRequest` is built and the provider's `synthesize_stream` is
invoked. -/
def synthesize_speech (model input_text voice : String)
    (response_format : ResponseFormat) (speed : ℚ) : SpeechOutcome :=
  if model ∈ providers then
    .streaming model ⟨input_text, voice, speed, response_format.value⟩
  else
    .unsupportedModel

/-- `POST /v1/audio/speech` (src/main.py lines 47-53, 111-120): the
`TTSSpeechRequest` pydantic model constrains `input` to at most 4096
characters and `speed` to `[0.25, 4.0]`; a violation is rejected with 422
before the handler runs. -/
def create_speech_post (model input voice : String)
    (response_format : ResponseFormat) (speed : ℚ) : SpeechOutcome :=
  if input.length ≤ 4096 ∧ (1/4 : ℚ) ≤ speed ∧ speed ≤ 4 then
    synthesize_speech model input voice response_format speed
  else
    .unprocessable

/-- `GET /v1/audio/speech` (src/main.py lines 123-138): the query
parameters are only type-annotated (`input: str`, `speed: float = 1.0`)
with no range or length constraint, so every well-typed query reaches
`_synthesize_speech`. -/
def create_speech_get (model input voice_id : String)
    (response_format : ResponseFormat) (speed : ℚ) : SpeechOutcome :=
  synthesize_speech model input voice_id response_format speed

end TTS.Main

/-! ## Helper lemmas -/

namespace TTS.Volcengine

theorem chunkList_flatten (xs : List Nat) : (chunkList xs).flatten = xs := by
  induction xs using chunkList.induct with
  | case1 => simp [chunkList]
  | case2 xs h ih =>
    rw [chunkList, if_neg h, List.flatten_cons, ih, List.take_append_drop]

theorem chunkList_dropLast (xs : List Nat) :
    ∀ c ∈ (chunkList xs).dropLast, c.length = 4096 := by
  induction xs using chunkList.induct with
  | case1 => simp [chunkList]
  | case2 xs h ih =>
    rw [chunkList, if_neg h]
    by_cases hd : chunkList (xs.drop 4096) = []
    · rw [hd]
      simp
    · rw [List.dropLast_cons_of_ne_nil hd]
      intro c hc
      rcases List.mem_cons.mp hc with hc | hc
      · subst hc
        have hlen : ¬ xs.length ≤ 4096 := by
          intro hle
          refine hd ?_
          rw [List.drop_eq_nil_iff.mpr hle, chunkList]
          simp
        rw [List.length_take]
        omega
      · exact ih c hc

theorem chunkList_mem (xs : List Nat) :
    ∀ c ∈ chunkList xs, 0 < c.length ∧ c.length ≤ 4096 := by
  induction xs using chunkList.induct with
  | case1 => simp [chunkList]
  | case2 xs h ih =>
    rw [chunkList, if_neg h]
    intro c hc
    rcases List.mem_cons.mp hc with hc | hc
    · subst hc
      have hpos : 0 < xs.length := List.length_pos.mpr h
      rw [List.length_take]
      omega
    · exact ih c hc

end TTS.Volcengine

namespace TTS.Volcengine

/-- C2: for the Volcengine provider (no native streaming), consuming
`synthesize_stream` to completion and concatenating all yielded chunks
produces a byte sequence byte-for-byte equal to the result of `synthesize`
on the identical request; every chunk except possibly the last is exactly
4096 bytes (and every chunk is non-empty and at most 4096 bytes); the
sequence of chunks is a finite list. -/
theorem volc_stream_refines_synthesize (req : TTS.TTSRequest) (detected : Option String)
    (resp : VolcResponse) (audio : List Nat)
    (h : synthesize req detected resp = .ok audio) :
    synthesize_stream req detected resp = .ok (chunkList audio) ∧
    (chunkList audio).flatten = audio ∧
    (∀ c ∈ (chunkList audio).dropLast, c.length = 4096) ∧
    (∀ c ∈ chunkList audio, 0 < c.length ∧ c.length ≤ 4096) := by
  refine ⟨?_, chunkList_flatten audio, chunkList_dropLast audio, chunkList_mem audio⟩
  simp [synthesize_stream, h, Except.map]

/-- Witness for C2 at a concrete vendor response carrying three audio
bytes. -/
theorem volc_stream_refines_synthesize_witness :
    synthesize_stream ⟨"你好", "", 1, "mp3"⟩ none ⟨.present (some [1, 2, 3]), none⟩ =
        .ok (chunkList [1, 2, 3]) ∧
    (chunkList [1, 2, 3]).flatten = [1, 2, 3] ∧
    (∀ c ∈ (chunkList [1, 2, 3]).dropLast, c.length = 4096) ∧
    (∀ c ∈ chunkList [1, 2, 3], 0 < c.length ∧ c.length ≤ 4096) :=
  volc_stream_refines_synthesize ⟨"你好", "", 1, "mp3"⟩ none
    ⟨.present (some [1, 2, 3]), none⟩ [1, 2, 3] rfl

end TTS.Volcengine

namespace TTS.Azure

/-- C1: every Azure synthesis or streaming-synthesis call first runs
`_get_endpoint`: either the cached session token is reused, in which case
its recorded expiry is more than 60 seconds past `now` and no refresh
happens, or exactly one synchronous token refresh is performed before the
vendor call is built.  In particular, with `expired_at = now + 30` (inside
the 60-second safety margin) exactly one refresh occurs, and with
`expired_at = now + 3600` no refresh occurs. -/
theorem azure_refresh_policy (st : AzureState) (now : ℤ) (req : TTS.TTSRequest)
    (fresh : Endpoint) (freshExp : ℤ) (hnow : 0 ≤ now) :
    (((buildCall st now req fresh freshExp).refreshCount = 0 ∧
        (buildCall st now req fresh freshExp).call =
          st.endpoint.map (fun ep => vendorCall ep req) ∧
        ∃ e, st.expired_at = some e ∧ 60 < e - now) ∨
      ((buildCall st now req fresh freshExp).refreshCount = 1 ∧
        (buildCall st now req fresh freshExp).call = some (vendorCall fresh req))) ∧
    (buildCall ⟨st.endpoint, some (now + 30)⟩ now req fresh freshExp).refreshCount = 1 ∧
    (buildCall ⟨st.endpoint, some (now + 3600)⟩ now req fresh freshExp).refreshCount = 0 := by
  refine ⟨?_, ?_, ?_⟩
  · obtain ⟨ep, ea⟩ := st
    cases ea with
    | none =>
      right
      simp [buildCall, get_endpoint, tokenValid]
    | some e =>
      by_cases he : tokenValid (some e) now = true
      · left
        have he2 : e ≠ 0 ∧ now < e - 60 := by
          simpa [tokenValid] using he
        refine ⟨?_, ?_, e, rfl, by omega⟩ <;>
          simp [buildCall, get_endpoint, he]
      · right
        simp only [Bool.not_eq_true] at he
        constructor <;> simp [buildCall, get_endpoint, he]
  · have hv : tokenValid (some (now + 30)) now = false := by
      simp [tokenValid]
    simp [buildCall, get_endpoint, hv]
  · have hv : tokenValid (some (now + 3600)) now = true := by
      simp [tokenValid]
      omega
    simp [buildCall, get_endpoint, hv]

/-- Witness for C1 at `now = 1000` on a freshly constructed provider. -/
theorem azure_refresh_policy_witness :
    (((buildCall ⟨none, none⟩ 1000 ⟨"hi", "", 1, "mp3"⟩ ⟨"tok", "eastus"⟩ 9999).refreshCount = 0 ∧
        (buildCall ⟨none, none⟩ 1000 ⟨"hi", "", 1, "mp3"⟩ ⟨"tok", "eastus"⟩ 9999).call =
          (none : Option Endpoint).map
            (fun ep => vendorCall ep ⟨"hi", "", 1, "mp3"⟩) ∧
        ∃ e, (none : Option ℤ) = some e ∧ 60 < e - 1000) ∨
      ((buildCall ⟨none, none⟩ 1000 ⟨"hi", "", 1, "mp3"⟩ ⟨"tok", "eastus"⟩ 9999).refreshCount = 1 ∧
        (buildCall ⟨none, none⟩ 1000 ⟨"hi", "", 1, "mp3"⟩ ⟨"tok", "eastus"⟩ 9999).call =
          some (vendorCall ⟨"tok", "eastus"⟩ ⟨"hi", "", 1, "mp3"⟩))) ∧
    (buildCall ⟨none, some (1000 + 30)⟩ 1000 ⟨"hi", "", 1, "mp3"⟩
        ⟨"tok", "eastus"⟩ 9999).refreshCount = 1 ∧
    (buildCall ⟨none, some (1000 + 3600)⟩ 1000 ⟨"hi", "", 1, "mp3"⟩
        ⟨"tok", "eastus"⟩ 9999).refreshCount = 0 :=
  azure_refresh_policy ⟨none, none⟩ 1000 ⟨"hi", "", 1, "mp3"⟩ ⟨"tok", "eastus"⟩ 9999
    (by norm_num)

end TTS.Azure

namespace TTS

/-- Counterexample to C3 as stated: with the in-memory slot holding the
empty list (a present cached copy), `get_voices(force_refresh=false)` does
not return it — the empty list is falsy in Python, so the code falls
through and performs a remote fetch. -/
theorem get_voices_empty_slot_counterexample :
    ¬ ((TTSProvider.get_voices (some []) false none
          (.ok [⟨"zh_female_qingxin", "清新女声 中英混", "zh-CN", some "Female",
            "volcengine"⟩])).fetchCount = 0 ∧
       (TTSProvider.get_voices (some []) false none
          (.ok [⟨"zh_female_qingxin", "清新女声 中英混", "zh-CN", some "Female",
            "volcengine"⟩])).result = .ok []) := by
  intro h
  exact absurd h.1 (by simp [TTSProvider.get_voices, voicesTruthy])

/-- C3 (amended): `get_voices(force_refresh=false)` returns the in-memory
cached copy if present and non-empty; otherwise, if the VoiceCache returns a
non-empty list, it stores that result in the in-memory slot and returns it;
otherwise it performs a remote fetch, stores the result into both the
in-memory slot and the VoiceCache, and returns it.  Two calls with
`force_refresh = false` whose first fetch (if any) succeeds with a non-empty
list perform at most one remote fetch in total and return identical results,
and `get_voices(force_refresh=true)` always performs a remote fetch. -/
theorem get_voices_cache_policy :
    (∀ l : List VoiceInfo, ∀ cached fetched, l ≠ [] →
      TTSProvider.get_voices (some l) false cached fetched = ⟨.ok l, some l, none, 0⟩) ∧
    (∀ c : List VoiceInfo, ∀ memory fetched, voicesTruthy memory = false → c ≠ [] →
      TTSProvider.get_voices memory false (some c) fetched = ⟨.ok c, some c, none, 0⟩) ∧
    (∀ memory cached vs, voicesTruthy memory = false → voicesTruthy cached = false →
      TTSProvider.get_voices memory false cached (.ok vs) = ⟨.ok vs, some vs, some vs, 1⟩) ∧
    (∀ memory cached fetched,
      (TTSProvider.get_voices memory true cached fetched).fetchCount = 1) ∧
    (∀ memory cached cached2 fetch2 vs, vs ≠ [] →
      (TTSProvider.get_voices memory false cached (.ok vs)).fetchCount +
        (TTSProvider.get_voices
          (TTSProvider.get_voices memory false cached (.ok vs)).memory
          false cached2 fetch2).fetchCount ≤ 1 ∧
      (TTSProvider.get_voices
          (TTSProvider.get_voices memory false cached (.ok vs)).memory
          false cached2 fetch2).result =
        (TTSProvider.get_voices memory false cached (.ok vs)).result) := by
  have htr : ∀ l : List VoiceInfo, l ≠ [] → voicesTruthy (some l) = true := by
    intro l hl
    cases l with
    | nil => exact absurd rfl hl
    | cons a t => rfl
  refine ⟨?_, ?_, ?_, ?_, ?_⟩
  · intro l cached fetched hl
    simp [TTSProvider.get_voices, htr l hl]
  · intro c memory fetched hm hc
    simp [TTSProvider.get_voices, hm, htr c hc]
  · intro memory cached vs hm hc
    simp [TTSProvider.get_voices, hm, hc]
  · intro memory cached fetched
    cases fetched <;> simp [TTSProvider.get_voices]
  · intro memory cached cached2 fetch2 vs hvs
    by_cases hm : voicesTruthy memory = true
    · obtain ⟨l, hl⟩ : ∃ l, memory = some l := by
        cases memory with
        | none => exact absurd hm (by simp [voicesTruthy])
        | some l => exact ⟨l, rfl⟩
      subst hl
      have hone : TTSProvider.get_voices (some l) false cached (.ok vs) =
          ⟨.ok l, some l, none, 0⟩ := by
        simp [TTSProvider.get_voices, hm]
      rw [hone]
      have htwo : TTSProvider.get_voices (some l) false cached2 fetch2 =
          ⟨.ok l, some l, none, 0⟩ := by
        simp [TTSProvider.get_voices, hm]
      rw [htwo]
      exact ⟨by norm_num, rfl⟩
    · simp only [Bool.not_eq_true] at hm
      by_cases hc : voicesTruthy cached = true
      · obtain ⟨c, hcc⟩ : ∃ c, cached = some c := by
          cases cached with
          | none => exact absurd hc (by simp [voicesTruthy])
          | some c => exact ⟨c, rfl⟩
        subst hcc
        have hcne : c ≠ [] := by
          intro h0
          rw [h0] at hc
          exact absurd hc (by simp [voicesTruthy])
        have hone : TTSProvider.get_voices memory false (some c) (.ok vs) =
            ⟨.ok c, some c, none, 0⟩ := by
          simp [TTSProvider.get_voices, hm, hc]
        rw [hone]
        have htwo : TTSProvider.get_voices (some c) false cached2 fetch2 =
            ⟨.ok c, some c, none, 0⟩ := by
          simp [TTSProvider.get_voices, htr c hcne]
        rw [htwo]
        exact ⟨by norm_num, rfl⟩
      · simp only [Bool.not_eq_true] at hc
        have hone : TTSProvider.get_voices memory false cached (.ok vs) =
            ⟨.ok vs, some vs, some vs, 1⟩ := by
          simp [TTSProvider.get_voices, hm, hc]
        rw [hone]
        have htwo : TTSProvider.get_voices (some vs) false cached2 fetch2 =
            ⟨.ok vs, some vs, none, 0⟩ := by
          simp [TTSProvider.get_voices, htr vs hvs]
        rw [htwo]
        exact ⟨by norm_num, rfl⟩

/-- Witness for C3 (amended) on concrete states: a warm non-empty slot is
reused; a cold provider with a cache hit takes it; a cold provider and cold
cache fetch once; `force_refresh = true` fetches; two cold calls fetch once
in total and agree. -/
theorem get_voices_cache_policy_witness :
    TTSProvider.get_voices
        (some [⟨"a", "A", "zh-CN", none, "azure"⟩]) false none (.error "down") =
      ⟨.ok [⟨"a", "A", "zh-CN", none, "azure"⟩],
        some [⟨"a", "A", "zh-CN", none, "azure"⟩], none, 0⟩ ∧
    TTSProvider.get_voices none false
        (some [⟨"b", "B", "zh-CN", none, "azure"⟩]) (.error "down") =
      ⟨.ok [⟨"b", "B", "zh-CN", none, "azure"⟩],
        some [⟨"b", "B", "zh-CN", none, "azure"⟩], none, 0⟩ ∧
    TTSProvider.get_voices none false none (.ok [⟨"c", "C", "zh-CN", none, "azure"⟩]) =
      ⟨.ok [⟨"c", "C", "zh-CN", none, "azure"⟩],
        some [⟨"c", "C", "zh-CN", none, "azure"⟩],
        some [⟨"c", "C", "zh-CN", none, "azure"⟩], 1⟩ ∧
    (TTSProvider.get_voices none true none
        (.ok [⟨"c", "C", "zh-CN", none, "azure"⟩])).fetchCount = 1 ∧
    ((TTSProvider.get_voices none false none
          (.ok [⟨"c", "C", "zh-CN", none, "azure"⟩])).fetchCount +
        (TTSProvider.get_voices
          (TTSProvider.get_voices none false none
            (.ok [⟨"c", "C", "zh-CN", none, "azure"⟩])).memory
          false none (.error "down")).fetchCount ≤ 1 ∧
      (TTSProvider.get_voices
          (TTSProvider.get_voices none false none
            (.ok [⟨"c", "C", "zh-CN", none, "azure"⟩])).memory
          false none (.error "down")).result =
        (TTSProvider.get_voices none false none
          (.ok [⟨"c", "C", "zh-CN", none, "azure"⟩])).result) :=
  ⟨get_voices_cache_policy.1 [⟨"a", "A", "zh-CN", none, "azure"⟩] none (.error "down")
      (by simp),
   get_voices_cache_policy.2.1 [⟨"b", "B", "zh-CN", none, "azure"⟩] none (.error "down")
      rfl (by simp),
   get_voices_cache_policy.2.2.1 none none [⟨"c", "C", "zh-CN", none, "azure"⟩] rfl rfl,
   get_voices_cache_policy.2.2.2.1 none none (.ok [⟨"c", "C", "zh-CN", none, "azure"⟩]),
   get_voices_cache_policy.2.2.2.2 none none none (.error "down")
      [⟨"c", "C", "zh-CN", none, "azure"⟩] (by simp)⟩

/-- C4: when the remote catalog fetch inside `get_voices` raises, the error
propagates unchanged to the caller, and both the in-memory voice slot and
the on-disk VoiceCache record are untouched (`VoiceCache.set` is never
called). -/
theorem get_voices_fetch_failure (memory cached : Option (List VoiceInfo))
    (force_refresh : Bool) (e : String)
    (h : (TTSProvider.get_voices memory force_refresh cached (.error e)).fetchCount = 1) :
    (TTSProvider.get_voices memory force_refresh cached (.error e)).result = .error e ∧
    (TTSProvider.get_voices memory force_refresh cached (.error e)).memory = memory ∧
    (TTSProvider.get_voices memory force_refresh cached (.error e)).cacheWrite = none := by
  unfold TTSProvider.get_voices at h ⊢
  by_cases h1 : (!force_refresh && voicesTruthy memory) = true
  · rw [if_pos h1] at h
    exact absurd h (by simp)
  · rw [if_neg h1] at h ⊢
    by_cases h2 : (!force_refresh && voicesTruthy cached) = true
    · rw [if_pos h2] at h
      exact absurd h (by simp)
    · rw [if_neg h2]
      exact ⟨rfl, rfl, rfl⟩

/-- Witness for C4 on a cold provider whose fetch fails. -/
theorem get_voices_fetch_failure_witness :
    (TTSProvider.get_voices none false none (.error "boom")).result = .error "boom" ∧
    (TTSProvider.get_voices none false none (.error "boom")).memory = none ∧
    (TTSProvider.get_voices none false none (.error "boom")).cacheWrite = none :=
  get_voices_fetch_failure none none false "boom" rfl

end TTS

namespace TTS

/-- C5 (code defect): `VoiceCache.get` returns `None` for a missing file,
invalid JSON, or an expired record (`now - timestamp > 604800`), but a
fresh, valid-JSON record whose `voices` array contains an entry with keys
not matching the `VoiceInfo` dataclass makes `VoiceInfo(**v)` raise
`TypeError`, which the `except (json.JSONDecodeError, KeyError)` clause does
not catch: the exception escapes to the caller instead of being treated as
a cache miss. -/
theorem voice_cache_malformed_record_raises :
    VoiceCache.get 1000 CACHE_TTL (.record (some 1000) [.badFields]) = .typeError ∧
    VoiceCache.get 1000 CACHE_TTL .missing = .cacheMiss ∧
    VoiceCache.get 1000 CACHE_TTL .notJson = .cacheMiss ∧
    VoiceCache.get 604802 CACHE_TTL
      (.record (some 1) [.good ⟨"a", "A", "zh-CN", none, "azure"⟩]) = .cacheMiss ∧
    CACHE_TTL = 604800 := by
  refine ⟨?_, rfl, rfl, ?_, by norm_num [CACHE_TTL]⟩
  · rw [VoiceCache.get, if_neg (by norm_num [CACHE_TTL])]
    rfl
  · rw [VoiceCache.get, if_pos (by norm_num [CACHE_TTL])]

end TTS

namespace TTS.Azure

/-- Counterexample to C6 as stated: a request for the `flac` format (which
the Azure vendor does not support) and an arbitrary made-up voice id does
not fail with a ValidationError — `supports_voice` accepts the voice, the
pipeline issues a vendor call, and the output format is silently substituted
with the mp3 profile. -/
theorem provider_validation_counterexample :
    TTS.supports_voice "not-a-real-voice" = true ∧
    (buildCall ⟨none, none⟩ 1000 ⟨"hi", "not-a-real-voice", 1, "flac"⟩
        ⟨"tok", "eastus"⟩ 9999).call.isSome = true ∧
    ((buildCall ⟨none, none⟩ 1000 ⟨"hi", "not-a-real-voice", 1, "flac"⟩
        ⟨"tok", "eastus"⟩ 9999).call.map VendorCall.outputFormat) =
      some "audio-24khz-48kbitrate-mono-mp3" :=
  ⟨rfl, rfl, rfl⟩

/-- C6 (amended): no provider-level voice or format validation exists:
`supports_voice` accepts every voice id, `flac` is mapped to the mp3
profile, every unrecognized format falls back to the default mp3 profile,
and whenever the session token is due for refresh the pipeline proceeds to
a vendor call for any request; no ValidationError is produced. -/
theorem no_provider_validation (v : String) (req : TTS.TTSRequest) (st : AzureState)
    (now : ℤ) (fresh : Endpoint) (freshExp : ℤ)
    (h : tokenValid st.expired_at now = false) :
    TTS.supports_voice v = true ∧
    (buildCall st now req fresh freshExp).call = some (vendorCall fresh req) ∧
    get_output_format "flac" = "audio-24khz-48kbitrate-mono-mp3" ∧
    (format_map.lookup req.response_format = none →
      get_output_format req.response_format = DEFAULT_OUTPUT_FORMAT) := by
  refine ⟨rfl, ?_, rfl, ?_⟩
  · simp [buildCall, get_endpoint, h]
  · intro hl
    simp [get_output_format, hl]

/-- Witness for C6 (amended) on a fresh provider and an unknown format. -/
theorem no_provider_validation_witness :
    TTS.supports_voice "x" = true ∧
    (buildCall ⟨none, none⟩ 0 ⟨"hi", "x", 1, "xyz"⟩ ⟨"tok", "eastus"⟩ 9999).call =
      some (vendorCall ⟨"tok", "eastus"⟩ ⟨"hi", "x", 1, "xyz"⟩) ∧
    get_output_format "flac" = "audio-24khz-48kbitrate-mono-mp3" ∧
    (format_map.lookup "xyz" = none →
      get_output_format "xyz" = DEFAULT_OUTPUT_FORMAT) :=
  no_provider_validation "x" ⟨"hi", "x", 1, "xyz"⟩ ⟨none, none⟩ 0 ⟨"tok", "eastus"⟩
    9999 rfl

/-- Counterexample to C7 as stated: at speed 1.256 the code embeds
`int((1.256 - 1) * 100) = 25`, while `round((1.256 - 1) * 100) = 26`. -/
theorem azure_rate_round_counterexample :
    azureRate (157/125) ≠ round (((157 : ℚ)/125 - 1) * 100) := by
  have h1 : ((157 : ℚ)/125 - 1) * 100 = 128/5 := by norm_num
  have h2 : azureRate (157/125) = 25 := by
    rw [azureRate, h1, truncTowardZero, if_pos (by norm_num), Int.floor_eq_iff]
    constructor <;> norm_num
  have h3 : round (((157 : ℚ)/125 - 1) * 100) = 26 := by
    rw [h1, round_eq, Int.floor_eq_iff]
    constructor <;> norm_num
  rw [h2, h3]
  norm_num

/-- C7 (amended): for every speed, the rate percentage embedded in the SSML
of the outbound Azure call is `int((speed - 1) * 100)` — truncation toward
zero, not rounding — the pitch is fixed at `0` and the expressive style is
the fixed `general`; truncation agrees with rounding whenever
`(speed - 1) * 100` is an integer. -/
theorem azure_ssml_rate_truncates (st : AzureState) (now : ℤ) (req : TTS.TTSRequest)
    (fresh : Endpoint) (freshExp : ℤ) (c : VendorCall)
    (hc : (buildCall st now req fresh freshExp).call = some c) :
    c.ssml = build_ssml req.text (TTS.strOr req.voice DEFAULT_VOICE_NAME)
        (toString (truncTowardZero ((req.speed - 1) * 100))) "0" "general" ∧
    (∀ n : ℤ, (req.speed - 1) * 100 = (n : ℚ) →
      azureRate req.speed = round ((req.speed - 1) * 100)) := by
  simp only [buildCall] at hc
  obtain ⟨ep, -, hv⟩ := Option.map_eq_some'.mp hc
  subst hv
  refine ⟨rfl, ?_⟩
  intro n hn
  rw [azureRate, hn, truncTowardZero, round_intCast]
  by_cases h0 : (0 : ℚ) ≤ (n : ℚ)
  · rw [if_pos h0, Int.floor_intCast]
  · rw [if_neg h0, Int.ceil_intCast]

/-- Witness for C7 (amended) at speed 1.5 on a fresh provider. -/
theorem azure_ssml_rate_truncates_witness :
    (vendorCall ⟨"tok", "eastus"⟩ ⟨"早上好", "", 3/2, "mp3"⟩).ssml =
      build_ssml "早上好" (TTS.strOr "" DEFAULT_VOICE_NAME)
        (toString (truncTowardZero (((3 : ℚ)/2 - 1) * 100))) "0" "general" ∧
    (∀ n : ℤ, ((3 : ℚ)/2 - 1) * 100 = (n : ℚ) →
      azureRate (3/2) = round (((3 : ℚ)/2 - 1) * 100)) :=
  azure_ssml_rate_truncates ⟨none, none⟩ 1000 ⟨"早上好", "", 3/2, "mp3"⟩
    ⟨"tok", "eastus"⟩ 9999 (vendorCall ⟨"tok", "eastus"⟩ ⟨"早上好", "", 3/2, "mp3"⟩) rfl

end TTS.Azure

namespace TTS.Main

/-- Counterexample to C8 as stated: a GET speech request with `speed = 5.0`
(outside [0.25, 4.0]) is not rejected at the validation boundary — the
query parameters carry no range constraint, so the provider is invoked —
while the same parameters on the POST endpoint are rejected with 422. -/
theorem get_speed_validation_counterexample :
    create_speech_get "azure" "hi" "v" .mp3 5 =
      .streaming "azure" ⟨"hi", "v", 5, "mp3"⟩ ∧
    create_speech_get "azure" "hi" "v" .mp3 5 ≠ .unprocessable ∧
    create_speech_post "azure" "hi" "v" .mp3 5 = .unprocessable := by
  refine ⟨?_, ?_, ?_⟩
  · rw [create_speech_get, synthesize_speech, if_pos (by simp [providers])]
    rfl
  · rw [create_speech_get, synthesize_speech, if_pos (by simp [providers])]
    simp
  · rw [create_speech_post, if_neg ?_]
    intro h
    exact absurd h.2.2 (by norm_num)

/-- C8 (amended): on the POST endpoint a speed outside [0.25, 4.0] or an
input longer than 4096 characters is rejected with a 422 at the pydantic
validation boundary before any provider is invoked; the GET endpoint
declares no such constraints — it forwards every well-typed query directly
to `_synthesize_speech` and invokes the provider whenever the model is
registered. -/
theorem speech_validation_boundary (model input voice : String)
    (response_format : ResponseFormat) (speed : ℚ)
    (h : ¬ (input.length ≤ 4096 ∧ (1/4 : ℚ) ≤ speed ∧ speed ≤ 4)) :
    create_speech_post model input voice response_format speed = .unprocessable ∧
    create_speech_get model input voice response_format speed =
      synthesize_speech model input voice response_format speed ∧
    (model ∈ providers →
      create_speech_get model input voice response_format speed =
        .streaming model ⟨input, voice, speed, response_format.value⟩) := by
  refine ⟨?_, rfl, ?_⟩
  · rw [create_speech_post, if_neg h]
  · intro hm
    rw [create_speech_get, synthesize_speech, if_pos hm]

/-- Witness for C8 (amended) at `speed = 5`. -/
theorem speech_validation_boundary_witness :
    create_speech_post "azure" "hi" "v" .mp3 5 = .unprocessable ∧
    create_speech_get "azure" "hi" "v" .mp3 5 =
      synthesize_speech "azure" "hi" "v" .mp3 5 ∧
    ("azure" ∈ providers →
      create_speech_get "azure" "hi" "v" .mp3 5 =
        .streaming "azure" ⟨"hi", "v", 5, "mp3"⟩) :=
  speech_validation_boundary "azure" "hi" "v" .mp3 5
    (by intro h; exact absurd h.2.2 (by norm_num))

end TTS.Main

namespace TTS

/-- Counterexample to C9 as stated: during a `VoiceCache.set` that replaces
one record with another, a concurrent reader can observe the truncated
(empty, hence invalid-JSON) file — a state that is neither the complete old
record nor the complete new one. -/
theorem cache_set_atomicity_counterexample :
    CacheFile.notJson ∈ VoiceCache.set_observable
      (.record (some 1) [.good ⟨"a", "A", "zh-CN", none, "azure"⟩]) 1000
      [⟨"b", "B", "zh-CN", none, "azure"⟩] ∧
    CacheFile.notJson ≠
      CacheFile.record (some 1) [.good ⟨"a", "A", "zh-CN", none, "azure"⟩] ∧
    CacheFile.notJson ≠ VoiceCache.set_record 1000 [⟨"b", "B", "zh-CN", none, "azure"⟩] := by
  refine ⟨?_, by decide, by decide⟩
  simp [VoiceCache.set_observable]

/-- C9 (amended): `VoiceCache.set` overwrites the provider record with the
current timestamp, but not atomically: `Path.write_text` truncates the file
and then writes, so a concurrent reader can additionally observe the
truncated (invalid-JSON) intermediate state, which a concurrent
`VoiceCache.get` treats as a cache miss; the final state is the complete
new record carrying the write-time timestamp. -/
theorem cache_set_not_atomic (old : CacheFile) (now : ℚ) (voices : List VoiceInfo) :
    (VoiceCache.set_observable old now voices).getLast? =
      some (VoiceCache.set_record now voices) ∧
    VoiceCache.set_record now voices = .record (some now) (voices.map .good) ∧
    CacheFile.notJson ∈ VoiceCache.set_observable old now voices ∧
    VoiceCache.get now CACHE_TTL .notJson = .cacheMiss := by
  refine ⟨rfl, rfl, ?_, rfl⟩
  simp [VoiceCache.set_observable]

/-- C10: a synthesis request whose voice field is the empty string gets the
provider's fixed default voice substituted — Azure embeds
`zh-CN-XiaoxiaoMultilingualNeural` in the SSML of the vendor call, and
Volcengine sets `speaker` to `zh_female_qingxin` in the vendor payload —
rather than failing or passing an empty voice through. -/
theorem default_voice_substitution (st : Azure.AzureState) (now : ℤ)
    (fresh : Azure.Endpoint) (freshExp : ℤ) (text : String) (speed : ℚ)
    (fmt : String) (detected : Option String) (c : Azure.VendorCall)
    (hc : (Azure.buildCall st now ⟨text, "", speed, fmt⟩ fresh freshExp).call = some c) :
    c.ssml = Azure.build_ssml text "zh-CN-XiaoxiaoMultilingualNeural"
        (toString (Azure.azureRate speed)) "0" Azure.DEFAULT_STYLE ∧
    (Volcengine.synthesize_payload ⟨text, "", speed, fmt⟩ detected).speaker =
      "zh_female_qingxin" ∧
    Azure.DEFAULT_VOICE_NAME = "zh-CN-XiaoxiaoMultilingualNeural" ∧
    Volcengine.DEFAULT_VOICE = "zh_female_qingxin" := by
  simp only [Azure.buildCall] at hc
  obtain ⟨ep, -, hv⟩ := Option.map_eq_some'.mp hc
  subst hv
  refine ⟨?_, ?_, rfl, rfl⟩
  · simp [Azure.vendorCall, strOr, Azure.DEFAULT_VOICE_NAME]
  · simp [Volcengine.synthesize_payload, strOr, Volcengine.DEFAULT_VOICE]

/-- Witness for C10 on a fresh Azure provider and a concrete request with
an empty voice field. -/
theorem default_voice_substitution_witness :
    (Azure.vendorCall ⟨"tok", "eastus"⟩ ⟨"你好", "", 1, "mp3"⟩).ssml =
      Azure.build_ssml "你好" "zh-CN-XiaoxiaoMultilingualNeural"
        (toString (Azure.azureRate 1)) "0" Azure.DEFAULT_STYLE ∧
    (Volcengine.synthesize_payload ⟨"你好", "", 1, "mp3"⟩ none).speaker =
      "zh_female_qingxin" ∧
    Azure.DEFAULT_VOICE_NAME = "zh-CN-XiaoxiaoMultilingualNeural" ∧
    Volcengine.DEFAULT_VOICE = "zh_female_qingxin" :=
  default_voice_substitution ⟨none, none⟩ 1000 ⟨"tok", "eastus"⟩ 9999 "你好" 1 "mp3"
    none (Azure.vendorCall ⟨"tok", "eastus"⟩ ⟨"你好", "", 1, "mp3"⟩) rfl

end TTS
